import Mathlib

set_option linter.unusedVariables false

/-!
# The Python bridge: dynamic loader and object layer

A shallow embedding of `src/libpython.cpp` (the loader that binds the Python
shared library at run time) and of `src/python.cpp` (the layer that wraps
`PyObject*` values, marshals call arguments and turns Python errors into host
errors).

Both files are sequences of calls into code that lives outside the repository
(the dynamic linker, the Python C API).  Such a callee is embedded as an
*oracle*: a function from the calls made so far (with their answers) and the
arguments of the present call to the answer.  Every call is appended to a
chronological trace, so that the order of the calls and the values that flow
between them can be stated about the trace alone.
-/

/-- A C pointer; `0` is `NULL`. -/
abbrev Ptr := Nat

/-! ## `libpython.cpp` -/

/-- One call into the dynamic linker, with its arguments and its answer.
The POSIX branch of the `#ifdef _WIN32` pairs is the one written down;
the Windows branch has the same shape call for call. -/
inductive DlCall where
  | dlopen (path : String) (ret : Ptr)
  | dlsym (lib : Ptr) (name : String) (ret : Ptr)
  | dlclose (lib : Ptr) (ret : Int)
  | dlerror (ret : Option String)
  deriving DecidableEq, Repr

/-- The dynamic linker: what each entry point answers, given the calls made so far.
For `dlerror`, `none` is a `NULL` message. -/
structure Platform where
  dlopen : List DlCall → String → Ptr
  dlsym : List DlCall → Ptr → String → Ptr
  dlclose : List DlCall → Ptr → Int
  dlerror : List DlCall → Option String

/-- The file-scope function pointers of `libpython.cpp`, lines 107-133. -/
inductive Slot where
  | _Py_Initialize
  | _Py_IncRef
  | _Py_DecRef
  | __PyObject_Str
  | _PyObject_Dir
  | _PyObject_GetAttrString
  | _PyObject_HasAttrString
  | _PyTuple_Size
  | _PyTuple_GetItem
  | _PyList_New
  | _PyList_Size
  | _PyList_GetItem
  | _PyList_SetItem
  | _PyErr_Fetch
  | _PyErr_NormalizeException
  | _PyCallable_Check
  | _PyRun_StringFlags
  | _PyRun_SimpleFileExFlags
  deriving DecidableEq, Repr

/-- The mutable memory `LibPython::load` and `LibPython::unload` work on: the member
`pLib_` and the file-scope function pointers. -/
structure Loader where
  pLib_ : Ptr
  globals : Slot → Ptr

/-- The text `lastDLErrorMessage` assigns for a given answer of `dlerror`. -/
def lastErrorText : Option String → String
  | some msg => msg
  | none => "(Unknown error)"

/-- `lastDLErrorMessage(pError)`: returns the new `*pError` and the trace. -/
def lastDLErrorMessage (os : Platform) (tr : List DlCall) : String × List DlCall :=
  let msg := os.dlerror tr
  (lastErrorText msg, tr ++ [DlCall.dlerror msg])

/-- What a helper of the loader hands back: its `bool`, the pointer it wrote through its
out-parameter, the error string, and the trace. -/
structure DlResult where
  ok : Bool
  ptr : Ptr
  pError : String
  trace : List DlCall

/-- `loadLibrary(libPath, ppLib, pError)`. -/
def loadLibrary (os : Platform) (tr : List DlCall) (libPath : String) (pError : String) :
    DlResult :=
  let lib := os.dlopen tr libPath
  let tr := tr ++ [DlCall.dlopen libPath lib]
  if lib = 0 then
    let e := lastDLErrorMessage os tr
    { ok := false, ptr := lib, pError := libPath ++ " - " ++ e.1, trace := e.2 }
  else
    { ok := true, ptr := lib, pError := pError, trace := tr }

/-- `loadSymbol(pLib, name, ppSymbol, pError)`. -/
def loadSymbol (os : Platform) (tr : List DlCall) (pLib : Ptr) (name : String)
    (pError : String) : DlResult :=
  let sym := os.dlsym tr pLib name
  let tr := tr ++ [DlCall.dlsym pLib name sym]
  if sym = 0 then
    let e := lastDLErrorMessage os tr
    { ok := false, ptr := sym, pError := name ++ " - " ++ e.1, trace := e.2 }
  else
    { ok := true, ptr := sym, pError := pError, trace := tr }

/-- `closeLibrary(pLib, pError)`: the `bool`, the error string and the trace. -/
def closeLibrary (os : Platform) (tr : List DlCall) (pLib : Ptr) (pError : String) :
    Bool × String × List DlCall :=
  let rc := os.dlclose tr pLib
  let tr := tr ++ [DlCall.dlclose pLib rc]
  if rc ≠ 0 then
    let e := lastDLErrorMessage os tr
    (false, e.1, e.2)
  else
    (true, pError, tr)

/-- The `LOAD_PYTHON_SYMBOL` / `LOAD_PYTHON_SYMBOL_AS` lines of `LibPython::load`, in
source order: the symbol name looked up and the function pointer it is stored in. -/
def requiredSymbols : List (String × Slot) :=
  [ ("Py_Initialize", Slot._Py_Initialize),
    ("Py_IncRef", Slot._Py_IncRef),
    ("Py_DecRef", Slot._Py_DecRef),
    ("PyObject_GetAttrString", Slot._PyObject_GetAttrString),
    ("PyObject_HasAttrString", Slot._PyObject_HasAttrString),
    ("PyTuple_Size", Slot._PyTuple_Size),
    ("PyTuple_GetItem", Slot._PyTuple_GetItem),
    ("PyList_New", Slot._PyList_New),
    ("PyList_Size", Slot._PyList_Size),
    ("PyList_GetItem", Slot._PyList_GetItem),
    ("PyList_SetItem", Slot._PyList_SetItem),
    ("PyErr_Fetch", Slot._PyErr_Fetch),
    ("PyErr_NormalizeException", Slot._PyErr_NormalizeException),
    ("PyObject_Str", Slot.__PyObject_Str),
    ("PyObject_Dir", Slot._PyObject_Dir),
    ("PyCallable_Check", Slot._PyCallable_Check),
    ("PyRun_StringFlags", Slot._PyRun_StringFlags) ]

/-- Store `p` in the function pointer `s`. -/
def setSlot (g : Slot → Ptr) (s : Slot) (p : Ptr) : Slot → Ptr :=
  fun t => if t = s then p else g t

/-- What `LibPython::load` / `LibPython::unload` leave behind: the returned `bool`, the
loader's memory, the error string and the trace. -/
structure LoadResult where
  ok : Bool
  state : Loader
  pError : String
  trace : List DlCall

/-- The run of `LOAD_PYTHON_SYMBOL` lines: each is
`if (!loadSymbol(pLib_, "name", (void**)&slot, pError)) return false;`.
`loadSymbol` writes through `&slot` whether or not the lookup succeeds. -/
def loadSymbols (os : Platform) (pLib : Ptr) :
    List (String × Slot) → (Slot → Ptr) → String → List DlCall → LoadResult
  | [], g, pError, tr => { ok := true, state := ⟨pLib, g⟩, pError := pError, trace := tr }
  | (name, slot) :: rest, g, pError, tr =>
    let r := loadSymbol os tr pLib name pError
    let g := setSlot g slot r.ptr
    if r.ok = false then
      { ok := false, state := ⟨pLib, g⟩, pError := r.pError, trace := r.trace }
    else
      loadSymbols os pLib rest g r.pError r.trace

namespace LibPython

/-- `LibPython::load(libPath, python3, pError)`.  The flag `python3` is not read. -/
def load (os : Platform) (st : Loader) (tr : List DlCall) (libPath : String)
    (python3 : Bool) (pError : String) : LoadResult :=
  let r := loadLibrary os tr libPath pError
  if r.ok = false then
    { ok := false, state := ⟨r.ptr, st.globals⟩, pError := r.pError, trace := r.trace }
  else
    loadSymbols os r.ptr requiredSymbols st.globals r.pError r.trace

/-- `LibPython::unload(pError)`. -/
def unload (os : Platform) (st : Loader) (tr : List DlCall) (pError : String) : LoadResult :=
  if st.pLib_ ≠ 0 then
    let r := closeLibrary os tr st.pLib_ pError
    { ok := r.1, state := st, pError := r.2.1, trace := r.2.2 }
  else
    { ok := true, state := st, pError := pError, trace := tr }

end LibPython

/-- Whether a linker call is a symbol lookup. -/
def DlCall.isLookup : DlCall → Bool
  | DlCall.dlsym _ _ _ => true
  | _ => false

/-- Whether a linker call closes the handle `lib`. -/
def DlCall.closes (lib : Ptr) : DlCall → Bool
  | DlCall.dlclose l _ => l = lib
  | _ => false

/-! ### Concrete linkers -/

/-- A linker that finds no library at any path. -/
def noSuchLibrary : Platform where
  dlopen := fun _ _ => 0
  dlsym := fun _ _ _ => 0
  dlclose := fun _ _ => 0
  dlerror := fun _ => some "cannot open shared object file"

/-- A linker whose library (handle `7`) exports every symbol at address `100` except
`Py_IncRef`, which it lacks. -/
def libWithoutIncRef : Platform where
  dlopen := fun _ _ => 7
  dlsym := fun _ _ name => if name = "Py_IncRef" then 0 else 100
  dlclose := fun _ _ => 0
  dlerror := fun _ => some "undefined symbol"

/-- A linker whose library (handle `7`) exports every symbol at address `100` and whose
close call always reports success. -/
def completeLibrary : Platform where
  dlopen := fun _ _ => 7
  dlsym := fun _ _ _ => 100
  dlclose := fun _ _ => 0
  dlerror := fun _ => none

/-- A loader that has loaded nothing yet: every pointer is `NULL`. -/
def freshLoader : Loader := ⟨0, fun _ => 0⟩

/-- A call a client makes on one `LibPython` loader. -/
inductive LoaderCall where
  | load (libPath : String) (python3 : Bool)
  | unload

/-- A loader in use: its memory, the error string its calls are given, the linker trace,
and the `bool` each call made so far has returned. -/
structure Session where
  state : Loader
  pError : String
  trace : List DlCall
  returned : List Bool

/-- Make one call on the loader of a session. -/
def Session.call (os : Platform) (s : Session) : LoaderCall → Session
  | LoaderCall.load libPath python3 =>
    let r := LibPython.load os s.state s.trace libPath python3 s.pError
    ⟨r.state, r.pError, r.trace, s.returned ++ [r.ok]⟩
  | LoaderCall.unload =>
    let r := LibPython.unload os s.state s.trace s.pError
    ⟨r.state, r.pError, r.trace, s.returned ++ [r.ok]⟩

/-- Make a sequence of calls on one loader, starting from a fresh one. -/
def runCalls (os : Platform) (calls : List LoaderCall) : Session :=
  calls.foldl (Session.call os) ⟨freshLoader, "", [], []⟩

/-! ## `python.cpp` -/

/-- An R `double`, carried by its 64-bit pattern: `py_object_call` only passes the
value on, it computes nothing with it. -/
abbrev Double := Nat

/-- One call of a Python C-API entry point, with its arguments and, where the code reads
it, its answer.  `PyErr_Fetch` records the three pointers it writes through its
out-parameters. -/
inductive PyCall where
  | Py_IncRef (o : Ptr)
  | Py_DecRef (o : Ptr)
  | PyErr_Fetch (ptype pvalue ptraceback : Ptr)
  | PyObject_Str (o : Ptr) (ret : Ptr)
  | PyString_AsString (o : Ptr) (ret : String)
  | PyImport_AddModule (name : String) (ret : Ptr)
  | PyModule_GetDict (m : Ptr) (ret : Ptr)
  | PyRun_StringFlags (code : String) (start : Int) (globals locals flags : Ptr) (ret : Ptr)
  | PyObject_GetAttrString (o : Ptr) (name : String) (ret : Ptr)
  | PyCallable_Check (o : Ptr) (ret : Int)
  | PyTuple_New (size : Int) (ret : Ptr)
  | PyTuple_SetItem (t : Ptr) (pos : Int) (o : Ptr)
  | PyInt_FromLong (v : Int) (ret : Ptr)
  | PyFloat_FromDouble (v : Double) (ret : Ptr)
  | PyDict_New (ret : Ptr)
  | PyObject_Call (f args kw : Ptr) (ret : Ptr)
  | PyObject_Dir (o : Ptr) (ret : Ptr)
  | PyList_Size (l : Ptr) (ret : Int)
  | PyList_GetItem (l : Ptr) (index : Int) (ret : Ptr)
  deriving DecidableEq, Repr

/-- The Python runtime: what each entry point answers, given the calls made so far and
the arguments.  `PyString_AsString` answers the C string its result points to; a `NULL`
result, which `python.cpp` would hand to a stream or a `std::string` unchecked, has no
counterpart here. -/
structure Python where
  PyErr_Fetch : List PyCall → Ptr × Ptr × Ptr
  PyObject_Str : List PyCall → Ptr → Ptr
  PyString_AsString : List PyCall → Ptr → String
  PyImport_AddModule : List PyCall → String → Ptr
  PyModule_GetDict : List PyCall → Ptr → Ptr
  PyRun_StringFlags : List PyCall → String → Int → Ptr → Ptr → Ptr → Ptr
  PyObject_GetAttrString : List PyCall → Ptr → String → Ptr
  PyCallable_Check : List PyCall → Ptr → Int
  PyTuple_New : List PyCall → Int → Ptr
  PyInt_FromLong : List PyCall → Int → Ptr
  PyFloat_FromDouble : List PyCall → Double → Ptr
  PyDict_New : List PyCall → Ptr
  PyObject_Call : List PyCall → Ptr → Ptr → Ptr → Ptr
  PyObject_Dir : List PyCall → Ptr → Ptr
  PyList_Size : List PyCall → Ptr → Int
  PyList_GetItem : List PyCall → Ptr → Int → Ptr

/-- Modelled from the spec: `PyObjectPtr` is declared in `tensorflow_types.hpp`, which is
not among the sources.  The spec's ForeignObject "wraps a raw pointer into the foreign
runtime's heap", and `python.cpp` calls it an `XPtr`: an R external pointer that holds the
`PyObject*` (`get`) and R attributes, of which `python.cpp` sets `class`.  Building,
converting and dropping it are host-side steps. -/
structure PyObjectPtr where
  get : Ptr
  attr_class : String
  deriving DecidableEq, Repr

/-- What a function of `python.cpp` leaves behind: the value it returns, or the message
it hands to `stop` (`Except.error`), and the trace. -/
structure Outcome (α : Type) where
  result : Except String α
  trace : List PyCall

/-- `py_object_ptr(object, decref)`.  The parameter `decref` (default `true`) is not
read; the body makes no call into Python. -/
def py_object_ptr (tr : List PyCall) (object : Ptr) (decref : Bool) :
    PyObjectPtr × List PyCall :=
  (⟨object, "py_object"⟩, tr)

/-- `py_fetch_error()`: the string returned, and the trace. -/
def py_fetch_error (py : Python) (tr : List PyCall) : String × List PyCall :=
  let pExcType := (py.PyErr_Fetch tr).1
  let pExcValue := (py.PyErr_Fetch tr).2.1
  let pExcTraceback := (py.PyErr_Fetch tr).2.2
  let tr := tr ++ [PyCall.PyErr_Fetch pExcType pExcValue pExcTraceback]
  if pExcValue ≠ 0 then
    let pStr := py.PyObject_Str tr pExcValue
    let tr := tr ++ [PyCall.PyObject_Str pExcValue pStr]
    let text := py.PyString_AsString tr pStr
    let tr := tr ++ [PyCall.PyString_AsString pStr text]
    let tr := tr ++ [PyCall.Py_DecRef pStr]
    let tr := tr ++ [PyCall.Py_DecRef pExcValue]
    (text, tr)
  else
    ("<unknown error>", tr)

/-- `stop(py_fetch_error())`. -/
def stopWithFetchedError {α : Type} (py : Python) (tr : List PyCall) : Outcome α :=
  ⟨Except.error (py_fetch_error py tr).1, (py_fetch_error py tr).2⟩

/-- `py_main_module()`. -/
def py_main_module (py : Python) (tr : List PyCall) : Outcome PyObjectPtr :=
  let main := py.PyImport_AddModule tr "__main__"
  let tr := tr ++ [PyCall.PyImport_AddModule "__main__" main]
  if main = 0 then
    stopWithFetchedError py tr
  else
    ⟨Except.ok (py_object_ptr tr main false).1, (py_object_ptr tr main false).2⟩

/-- The constant `Py_file_input` of `Python.h`. -/
def Py_file_input : Int := 257

/-- `py_run_string(code)`. -/
def py_run_string (py : Python) (tr : List PyCall) (code : String) : Outcome Unit :=
  match py_main_module py tr with
  | ⟨Except.error msg, tr⟩ => ⟨Except.error msg, tr⟩
  | ⟨Except.ok main, tr⟩ =>
    let dict := py.PyModule_GetDict tr main.get
    let tr := tr ++ [PyCall.PyModule_GetDict main.get dict]
    let res := py.PyRun_StringFlags tr code Py_file_input dict dict 0
    let tr := tr ++ [PyCall.PyRun_StringFlags code Py_file_input dict dict 0 res]
    if res = 0 then
      stopWithFetchedError py tr
    else
      ⟨Except.ok (), tr ++ [PyCall.Py_DecRef res]⟩

/-- `py_object_get_attr(x, name)`. -/
def py_object_get_attr (py : Python) (tr : List PyCall) (x : PyObjectPtr) (name : String) :
    Outcome PyObjectPtr :=
  let attr := py.PyObject_GetAttrString tr x.get name
  let tr := tr ++ [PyCall.PyObject_GetAttrString x.get name attr]
  if attr = 0 then
    stopWithFetchedError py tr
  else
    ⟨Except.ok (py_object_ptr tr attr true).1, (py_object_ptr tr attr true).2⟩

/-- `py_object_is_callable(x)`. -/
def py_object_is_callable (py : Python) (tr : List PyCall) (x : PyObjectPtr) :
    Bool × List PyCall :=
  let rc := py.PyCallable_Check tr x.get
  (rc = 1, tr ++ [PyCall.PyCallable_Check x.get rc])

/-- An R value as `py_object_call` reads it: its `sexp_type()`, and the cells of its
payload as `INTEGER(sexp)[k]` and `REAL(sexp)[k]` read them (cell `0` is the first
element; for a vector of length zero it is whatever the read finds there). -/
structure RObject where
  sexp_type : Nat
  INTEGER : Nat → Int
  REAL : Nat → Double

/-- The constant `INTSXP` of `Rinternals.h`. -/
def INTSXP : Nat := 13

/-- The constant `REALSXP` of `Rinternals.h`. -/
def REALSXP : Nat := 14

/-- The `for` loop of `py_object_call`, from index `i` on, over the arguments not yet
visited: returns the trace. -/
def setArgs (py : Python) (pyArgs : Ptr) : Nat → List RObject → List PyCall → List PyCall
  | _, [], tr => tr
  | i, item :: rest, tr =>
    let type := item.sexp_type
    if type = INTSXP then
      let value := item.INTEGER 0
      let obj := py.PyInt_FromLong tr value
      let tr := tr ++ [PyCall.PyInt_FromLong value obj]
      let tr := tr ++ [PyCall.PyTuple_SetItem pyArgs i obj]
      setArgs py pyArgs (i + 1) rest tr
    else if type = REALSXP then
      let value := item.REAL 0
      let obj := py.PyFloat_FromDouble tr value
      let tr := tr ++ [PyCall.PyFloat_FromDouble value obj]
      let tr := tr ++ [PyCall.PyTuple_SetItem pyArgs i obj]
      setArgs py pyArgs (i + 1) rest tr
    else
      setArgs py pyArgs (i + 1) rest tr

/-- `py_object_call(x, args, keywords)`.  The parameter `keywords` is not read. -/
def py_object_call (py : Python) (tr : List PyCall) (x : PyObjectPtr) (args : List RObject)
    (keywords : List RObject) : Outcome PyObjectPtr :=
  let pyArgs := py.PyTuple_New tr args.length
  let tr := tr ++ [PyCall.PyTuple_New args.length pyArgs]
  let tr := setArgs py pyArgs 0 args tr
  let pyKeywords := py.PyDict_New tr
  let tr := tr ++ [PyCall.PyDict_New pyKeywords]
  let res := py.PyObject_Call tr x.get pyArgs pyKeywords
  let tr := tr ++ [PyCall.PyObject_Call x.get pyArgs pyKeywords res]
  let tr := tr ++ [PyCall.Py_DecRef pyArgs]
  let tr := tr ++ [PyCall.Py_DecRef pyKeywords]
  if res = 0 then
    stopWithFetchedError py tr
  else
    ⟨Except.ok (py_object_ptr tr res true).1, (py_object_ptr tr res true).2⟩

/-- The `for` loop of `py_list_attributes`, `for (index; index < len; index++)`, with
`count` the number of rounds left (`len - index`, none when that is negative): returns
`attributes` and the trace. -/
def pushAttributes (py : Python) (attrs : Ptr) :
    Nat → Int → List String → List PyCall → List String × List PyCall
  | 0, _, attributes, tr => (attributes, tr)
  | count + 1, index, attributes, tr =>
    let item := py.PyList_GetItem tr attrs index
    let tr := tr ++ [PyCall.PyList_GetItem attrs index item]
    let value := py.PyString_AsString tr item
    let tr := tr ++ [PyCall.PyString_AsString item value]
    pushAttributes py attrs count (index + 1) (attributes ++ [value]) tr

/-- `py_list_attributes(x)`. -/
def py_list_attributes (py : Python) (tr : List PyCall) (x : PyObjectPtr) :
    Outcome (List String) :=
  let attrs := py.PyObject_Dir tr x.get
  let tr := tr ++ [PyCall.PyObject_Dir x.get attrs]
  if attrs = 0 then
    stopWithFetchedError py tr
  else
    let len := py.PyList_Size tr attrs
    let tr := tr ++ [PyCall.PyList_Size attrs len]
    let r := pushAttributes py attrs len.toNat 0 [] tr
    ⟨Except.ok r.1, r.2 ++ [PyCall.Py_DecRef attrs]⟩

/-! ### Reading a trace -/

/-- Whether a call is `PyErr_Fetch`. -/
def PyCall.isFetch : PyCall → Bool
  | PyCall.PyErr_Fetch _ _ _ => true
  | _ => false

/-- Whether a call is `Py_DecRef`. -/
def PyCall.isDecRef : PyCall → Bool
  | PyCall.Py_DecRef _ => true
  | _ => false

/-- Whether a call is `Py_IncRef`. -/
def PyCall.isIncRef : PyCall → Bool
  | PyCall.Py_IncRef _ => true
  | _ => false

/-- Whether a call is `PyObject_Call`. -/
def PyCall.isObjectCall : PyCall → Bool
  | PyCall.PyObject_Call _ _ _ _ => true
  | _ => false

/-- Whether a call is one of the four entry points `py_fetch_error` invokes. -/
def PyCall.inFetchError : PyCall → Bool
  | PyCall.PyErr_Fetch _ _ _ => true
  | PyCall.PyObject_Str _ _ => true
  | PyCall.PyString_AsString _ _ => true
  | PyCall.Py_DecRef _ => true
  | _ => false

/-- The runtime answers `PyObject_Dir`, `PyList_Size`, `PyList_GetItem` and
`PyString_AsString` from their arguments alone: what an object lists, and what each
listed item reads as, does not change over time. -/
def DirectoryUnchanged (py : Python) : Prop :=
  (∀ h h2 o, py.PyObject_Dir h o = py.PyObject_Dir h2 o)
  ∧ (∀ h h2 l, py.PyList_Size h l = py.PyList_Size h2 l)
  ∧ (∀ h h2 l i, py.PyList_GetItem h l i = py.PyList_GetItem h2 l i)
  ∧ (∀ h h2 o, py.PyString_AsString h o = py.PyString_AsString h2 o)

/-- The calls `py_object_call` may make for the argument `a` at position `pos` of the
tuple `pyArgs`: build an integer from cell `0` and store it at `pos`; or build a float
from cell `0` and store it at `pos`; or, for any other type, nothing. -/
def ArgCalls (pyArgs : Ptr) (pos : Nat) (a : RObject) (seg : List PyCall) : Prop :=
  (a.sexp_type = INTSXP ∧
    ∃ o, seg = [PyCall.PyInt_FromLong (a.INTEGER 0) o, PyCall.PyTuple_SetItem pyArgs pos o])
  ∨ (a.sexp_type = REALSXP ∧
    ∃ o, seg = [PyCall.PyFloat_FromDouble (a.REAL 0) o, PyCall.PyTuple_SetItem pyArgs pos o])
  ∨ (a.sexp_type ≠ INTSXP ∧ a.sexp_type ≠ REALSXP ∧ seg = [])

/-! ### Concrete runtimes and values -/

/-- A runtime with a pending exception `(11, 12, 13)` whose value reads `"boom"`, and in
which getting an attribute, running a string, calling and listing all fail.  The pending
exception is handed out by the first `PyErr_Fetch`; later fetches find nothing. -/
def failingPython : Python where
  PyErr_Fetch := fun h => if h.any PyCall.isFetch then (0, 0, 0) else (11, 12, 13)
  PyObject_Str := fun _ _ => 14
  PyString_AsString := fun _ _ => "boom"
  PyImport_AddModule := fun _ _ => 41
  PyModule_GetDict := fun _ _ => 42
  PyRun_StringFlags := fun _ _ _ _ _ _ => 0
  PyObject_GetAttrString := fun _ _ _ => 0
  PyCallable_Check := fun _ _ => 0
  PyTuple_New := fun _ _ => 21
  PyInt_FromLong := fun _ _ => 31
  PyFloat_FromDouble := fun _ _ => 32
  PyDict_New := fun _ => 22
  PyObject_Call := fun _ _ _ _ => 0
  PyObject_Dir := fun _ _ => 0
  PyList_Size := fun _ _ => 0
  PyList_GetItem := fun _ _ _ => 0

/-- A runtime with a pending exception whose type `11` and traceback `13` are present
and whose value is absent. -/
def valuelessPython : Python :=
  { failingPython with PyErr_Fetch := fun _ => (11, 0, 13) }

/-- A runtime without a pending exception in which every entry point succeeds; each
object lists the two attributes `"imag"` and `"real"`. -/
def workingPython : Python where
  PyErr_Fetch := fun _ => (0, 0, 0)
  PyObject_Str := fun _ _ => 14
  PyString_AsString := fun _ o => if o = 60 then "imag" else "real"
  PyImport_AddModule := fun _ _ => 41
  PyModule_GetDict := fun _ _ => 42
  PyRun_StringFlags := fun _ _ _ _ _ _ => 43
  PyObject_GetAttrString := fun _ _ _ => 44
  PyCallable_Check := fun _ _ => 1
  PyTuple_New := fun _ _ => 21
  PyInt_FromLong := fun _ _ => 31
  PyFloat_FromDouble := fun _ _ => 32
  PyDict_New := fun _ => 22
  PyObject_Call := fun _ _ _ _ => 70
  PyObject_Dir := fun _ _ => 50
  PyList_Size := fun _ _ => 2
  PyList_GetItem := fun _ _ i => 60 + i.toNat

/-- The R integer vector whose cells all hold `v`. -/
def intArg (v : Int) : RObject := ⟨INTSXP, fun _ => v, fun _ => 0⟩

/-- The R real vector whose cells all hold the double with bit pattern `bits`. -/
def realArg (bits : Double) : RObject := ⟨REALSXP, fun _ => 0, fun _ => bits⟩

/-- An R character vector (`STRSXP` is `16`). -/
def strArg : RObject := ⟨16, fun _ => 0, fun _ => 0⟩

/-- A wrapped Python object at address `9`. -/
def someObject : PyObjectPtr := ⟨9, "py_object"⟩

/-! ## Theorems: the loader -/

/-- C1. When the platform open call answers `NULL`, `LibPython::load` returns `false`,
the error text is the path, then `" - "`, then the platform's last-error text (so the
path is an initial segment of it), the only linker calls made are the open and the
error query (no symbol lookup), and `pLib_` is `NULL` afterwards; this for every path,
every value of the variant flag, and every earlier content of the loader. -/
theorem load_open_failure (os : Platform) (st : Loader) (tr : List DlCall)
    (libPath : String) (python3 : Bool) (pError : String)
    (hnull : os.dlopen tr libPath = 0) :
    (LibPython.load os st tr libPath python3 pError).ok = false
    ∧ (LibPython.load os st tr libPath python3 pError).pError
        = libPath ++ " - "
          ++ lastErrorText (os.dlerror (tr ++ [DlCall.dlopen libPath 0]))
    ∧ libPath.data <+: (LibPython.load os st tr libPath python3 pError).pError.data
    ∧ (LibPython.load os st tr libPath python3 pError).trace
        = tr ++ [DlCall.dlopen libPath 0,
                 DlCall.dlerror (os.dlerror (tr ++ [DlCall.dlopen libPath 0]))]
    ∧ (∀ c ∈ (LibPython.load os st tr libPath python3 pError).trace.drop tr.length,
        c.isLookup = false)
    ∧ (LibPython.load os st tr libPath python3 pError).state.pLib_ = 0 := by
  have hrun : LibPython.load os st tr libPath python3 pError
      = { ok := false, state := ⟨0, st.globals⟩,
          pError := libPath ++ " - "
            ++ lastErrorText (os.dlerror (tr ++ [DlCall.dlopen libPath 0])),
          trace := tr ++ [DlCall.dlopen libPath 0,
                 DlCall.dlerror (os.dlerror (tr ++ [DlCall.dlopen libPath 0]))] } := by
    simp [LibPython.load, loadLibrary, lastDLErrorMessage, hnull]
  rw [hrun]
  refine ⟨rfl, rfl, ?_, rfl, ?_, rfl⟩
  · simp [String.data_append, List.append_assoc]
  · simp [DlCall.isLookup]

/-- C1, at a concrete input: loading `"/no/such/libpython.so"` on a linker that finds
no library. -/
theorem load_open_failure_witness :
    (LibPython.load noSuchLibrary freshLoader [] "/no/such/libpython.so" true "").ok = false
    ∧ (LibPython.load noSuchLibrary freshLoader [] "/no/such/libpython.so" true "").pError
        = "/no/such/libpython.so - cannot open shared object file"
    ∧ (LibPython.load noSuchLibrary freshLoader [] "/no/such/libpython.so" true "").state.pLib_
        = 0 :=
  have h := load_open_failure noSuchLibrary freshLoader [] "/no/such/libpython.so" true ""
    (by rfl)
  ⟨h.1, by rw [h.2.1]; rfl, h.2.2.2.2.2⟩

/-- The symbol loop, run on a list whose entry `(name, slot)` is the first that the
library lacks: it stops there, having stored every earlier address and `NULL` for the
missing symbol, and looks nothing up afterwards. -/
theorem loadSymbols_stops (os : Platform) (lib : Ptr) (name : String) (slot : Slot)
    (post : List (String × Slot)) (hmiss : ∀ h, os.dlsym h lib name = 0) :
    ∀ (pre : List (String × Slot)) (g : Slot → Ptr) (pError : String) (tr : List DlCall),
      (∀ h, ∀ s ∈ pre, os.dlsym h lib s.1 ≠ 0) →
      ((pre ++ (name, slot) :: post).map Prod.snd).Nodup →
      (loadSymbols os lib (pre ++ (name, slot) :: post) g pError tr).ok = false
      ∧ (loadSymbols os lib (pre ++ (name, slot) :: post) g pError tr).state.pLib_ = lib
      ∧ (∃ m, (loadSymbols os lib (pre ++ (name, slot) :: post) g pError tr).trace
            = tr ++ pre.map (fun s => DlCall.dlsym lib s.1
                ((loadSymbols os lib (pre ++ (name, slot) :: post) g pError tr).state.globals
                  s.2))
              ++ [DlCall.dlsym lib name 0, DlCall.dlerror m]
          ∧ (loadSymbols os lib (pre ++ (name, slot) :: post) g pError tr).pError
            = name ++ " - " ++ lastErrorText m)
      ∧ (∀ s ∈ pre,
          (loadSymbols os lib (pre ++ (name, slot) :: post) g pError tr).state.globals s.2 ≠ 0)
      ∧ (loadSymbols os lib (pre ++ (name, slot) :: post) g pError tr).state.globals slot = 0
      ∧ (∀ t, t ∉ pre.map Prod.snd → t ≠ slot →
          (loadSymbols os lib (pre ++ (name, slot) :: post) g pError tr).state.globals t
            = g t) := by
  intro pre
  induction pre with
  | nil =>
    intro g pError tr _ _
    simp [loadSymbols, loadSymbol, lastDLErrorMessage, hmiss, setSlot]
    intro t ht
    simp [ht]
  | cons a pre ih =>
    intro g pError tr hpre hnd
    obtain ⟨n1, s1⟩ := a
    have h1 : os.dlsym tr lib n1 ≠ 0 := hpre tr (n1, s1) (by simp)
    have hpre2 : ∀ h, ∀ s ∈ pre, os.dlsym h lib s.1 ≠ 0 :=
      fun h s hs => hpre h s (by simp [hs])
    simp only [List.cons_append, List.map_cons, List.nodup_cons] at hnd
    obtain ⟨hs1, hnd2⟩ := hnd
    have hs1pre : s1 ∉ pre.map Prod.snd := by
      intro hmem
      apply hs1
      simp only [List.map_append, List.mem_append]
      exact Or.inl hmem
    have hs1slot : s1 ≠ slot := by
      intro heq
      apply hs1
      simp [heq]
    have hstep : loadSymbols os lib ((n1, s1) :: pre ++ (name, slot) :: post) g pError tr
        = loadSymbols os lib (pre ++ (name, slot) :: post) (setSlot g s1 (os.dlsym tr lib n1))
            pError (tr ++ [DlCall.dlsym lib n1 (os.dlsym tr lib n1)]) := by
      simp [loadSymbols, loadSymbol, h1]
    rw [hstep]
    obtain ⟨hok, hlib, ⟨m, htr, herr⟩, hnz, hslot, hframe⟩ :=
      ih (setSlot g s1 (os.dlsym tr lib n1)) pError
        (tr ++ [DlCall.dlsym lib n1 (os.dlsym tr lib n1)]) hpre2 hnd2
    have hg1 := hframe s1 hs1pre hs1slot
    have hg1v : setSlot g s1 (os.dlsym tr lib n1) s1 = os.dlsym tr lib n1 := by
      simp [setSlot]
    refine ⟨hok, hlib, ⟨m, ?_, herr⟩, ?_, hslot, ?_⟩
    · rw [htr]
      simp only [List.map_cons, List.append_assoc, List.cons_append, List.nil_append]
      rw [hg1, hg1v]
    · intro s hs
      rcases List.mem_cons.mp hs with rfl | hs
      · rw [hg1, hg1v]; exact h1
      · exact hnz s hs
    · intro t ht hts
      simp only [List.map_cons, List.mem_cons, not_or] at ht
      rw [hframe t ht.2 hts]
      simp [setSlot, ht.1]

/-- C2, as the code has it. Let `(name, slot)` be the first required symbol the opened
library lacks. Then `LibPython::load` returns `false` with the error text
`name ++ " - " ++` the platform's error text, keeps the opened handle in `pLib_`, and the
linker calls it makes are the open, one successful lookup per earlier symbol, the failed
lookup and the error query, nothing after. Every function pointer of an earlier symbol
holds the address just resolved (not `NULL`), the missing symbol's pointer is `NULL`, and
every other function pointer holds what it held before the call. -/
theorem load_symbol_failure (os : Platform) (st : Loader) (tr : List DlCall)
    (libPath : String) (python3 : Bool) (pError : String)
    (pre post : List (String × Slot)) (name : String) (slot : Slot)
    (hsplit : requiredSymbols = pre ++ (name, slot) :: post)
    (hopen : os.dlopen tr libPath ≠ 0)
    (hpre : ∀ h, ∀ s ∈ pre, os.dlsym h (os.dlopen tr libPath) s.1 ≠ 0)
    (hmiss : ∀ h, os.dlsym h (os.dlopen tr libPath) name = 0) :
    (LibPython.load os st tr libPath python3 pError).ok = false
    ∧ (LibPython.load os st tr libPath python3 pError).state.pLib_ = os.dlopen tr libPath
    ∧ (∃ m, (LibPython.load os st tr libPath python3 pError).trace
          = tr ++ [DlCall.dlopen libPath (os.dlopen tr libPath)]
            ++ pre.map (fun s => DlCall.dlsym (os.dlopen tr libPath) s.1
                ((LibPython.load os st tr libPath python3 pError).state.globals s.2))
            ++ [DlCall.dlsym (os.dlopen tr libPath) name 0, DlCall.dlerror m]
        ∧ (LibPython.load os st tr libPath python3 pError).pError
          = name ++ " - " ++ lastErrorText m)
    ∧ (∀ s ∈ pre, (LibPython.load os st tr libPath python3 pError).state.globals s.2 ≠ 0)
    ∧ (LibPython.load os st tr libPath python3 pError).state.globals slot = 0
    ∧ (∀ t, t ∉ pre.map Prod.snd → t ≠ slot →
        (LibPython.load os st tr libPath python3 pError).state.globals t = st.globals t) := by
  have hnd : ((pre ++ (name, slot) :: post).map Prod.snd).Nodup := by
    rw [← hsplit]; decide
  have hrun : LibPython.load os st tr libPath python3 pError
      = loadSymbols os (os.dlopen tr libPath) (pre ++ (name, slot) :: post) st.globals pError
          (tr ++ [DlCall.dlopen libPath (os.dlopen tr libPath)]) := by
    simp [LibPython.load, loadLibrary, hopen, hsplit]
  rw [hrun]
  exact loadSymbols_stops os (os.dlopen tr libPath) name slot post hmiss pre st.globals pError
    (tr ++ [DlCall.dlopen libPath (os.dlopen tr libPath)]) hpre hnd

/-- C2 at a concrete input: a library that exports everything but `Py_IncRef`. -/
theorem load_symbol_failure_witness :
    (LibPython.load libWithoutIncRef freshLoader [] "libpython2.7.so" false "").ok = false
    ∧ (LibPython.load libWithoutIncRef freshLoader [] "libpython2.7.so" false "").state.globals
        Slot._Py_Initialize ≠ 0
    ∧ (LibPython.load libWithoutIncRef freshLoader [] "libpython2.7.so" false "").state.globals
        Slot._Py_IncRef = 0
    ∧ (LibPython.load libWithoutIncRef freshLoader [] "libpython2.7.so" false "").state.globals
        Slot._Py_DecRef = 0 :=
  have h := load_symbol_failure libWithoutIncRef freshLoader [] "libpython2.7.so" false ""
    [("Py_Initialize", Slot._Py_Initialize)] (requiredSymbols.drop 2) "Py_IncRef"
    Slot._Py_IncRef (by rfl) (by decide)
    (by intro h s hs; simp at hs; subst hs; simp [libWithoutIncRef])
    (by intro h; simp [libWithoutIncRef])
  ⟨h.1, h.2.2.2.1 ("Py_Initialize", Slot._Py_Initialize) (by simp), h.2.2.2.2.1,
    (h.2.2.2.2.2 Slot._Py_DecRef (by decide) (by decide)).trans rfl⟩

/-- C2 as stated fails: on a library that lacks only `Py_IncRef` (the second symbol in
resolution order), on a loader whose function pointers were all `NULL`, `load` returns
`false` and yet `_Py_Initialize`, which precedes the missing symbol, no longer holds the
value it held before the call: it holds the address `100` just resolved. -/
theorem load_publishes_earlier_symbols :
    (∀ h, libWithoutIncRef.dlsym h 7 "Py_IncRef" = 0)
    ∧ ("Py_IncRef", Slot._Py_IncRef) ∈ requiredSymbols
    ∧ (LibPython.load libWithoutIncRef freshLoader [] "libpython2.7.so" false "").ok = false
    ∧ freshLoader.globals Slot._Py_Initialize = 0
    ∧ (LibPython.load libWithoutIncRef freshLoader [] "libpython2.7.so" false "").state.globals
        Slot._Py_Initialize = 100
    ∧ (LibPython.load libWithoutIncRef freshLoader [] "libpython2.7.so" false "").state.globals
        Slot._Py_Initialize ≠ freshLoader.globals Slot._Py_Initialize := by
  refine ⟨fun _ => rfl, by decide, by rfl, rfl, by rfl, by decide⟩

/-- `LibPython::unload` never changes the loader's memory: in particular `pLib_` still
holds the handle after a close. -/
theorem unload_keeps_state (os : Platform) (st : Loader) (tr : List DlCall) (pError : String) :
    (LibPython.unload os st tr pError).state = st := by
  unfold LibPython.unload
  split <;> rfl

/-- C3, where the code departs from it: `LibPython::unload` leaves `pLib_` as it was,
whatever the close call answers. So on a library that loads completely and whose close
call succeeds, the calls `load`, `unload`, `unload` all return `true`, and the handle `7`
that the one open call returned is passed to the close call twice: the second `unload`
still finds `pLib_ = 7` and closes it again. -/
theorem unload_twice_closes_twice :
    (∀ (os : Platform) (st : Loader) (tr : List DlCall) (pError : String),
      (LibPython.unload os st tr pError).state.pLib_ = st.pLib_)
    ∧ (runCalls completeLibrary
        [LoaderCall.load "libpython2.7.so" false, LoaderCall.unload, LoaderCall.unload]).returned
      = [true, true, true]
    ∧ (runCalls completeLibrary
        [LoaderCall.load "libpython2.7.so" false, LoaderCall.unload, LoaderCall.unload]).trace.filter
          (fun c => c.closes 7 || c matches DlCall.dlopen _ _)
      = [DlCall.dlopen "libpython2.7.so" 7, DlCall.dlclose 7 0, DlCall.dlclose 7 0]
    ∧ (runCalls completeLibrary
        [LoaderCall.load "libpython2.7.so" false, LoaderCall.unload]).state.pLib_ = 7 := by
  refine ⟨fun os st tr pError => ?_, by rfl, by rfl, by rfl⟩
  rw [unload_keeps_state]


/-! ## Theorems: the object layer -/

/-- The sentinel path of `py_fetch_error`. -/
theorem py_fetch_error_null (py : Python) (tr : List PyCall)
    (hv : (py.PyErr_Fetch tr).2.1 = 0) :
    py_fetch_error py tr
      = ("<unknown error>",
          tr ++ [PyCall.PyErr_Fetch (py.PyErr_Fetch tr).1 0 (py.PyErr_Fetch tr).2.2]) := by
  simp [py_fetch_error, hv]

/-- The formatting path of `py_fetch_error`. -/
theorem py_fetch_error_value (py : Python) (tr : List PyCall)
    (hv : (py.PyErr_Fetch tr).2.1 ≠ 0) :
    ∃ t v b pStr text, v = (py.PyErr_Fetch tr).2.1 ∧ t = (py.PyErr_Fetch tr).1
      ∧ b = (py.PyErr_Fetch tr).2.2
      ∧ pStr = py.PyObject_Str (tr ++ [PyCall.PyErr_Fetch t v b]) v
      ∧ text = py.PyString_AsString
          (tr ++ [PyCall.PyErr_Fetch t v b, PyCall.PyObject_Str v pStr]) pStr
      ∧ py_fetch_error py tr
        = (text, tr ++ [PyCall.PyErr_Fetch t v b, PyCall.PyObject_Str v pStr,
            PyCall.PyString_AsString pStr text, PyCall.Py_DecRef pStr, PyCall.Py_DecRef v]) := by
  refine ⟨_, _, _, py.PyObject_Str (tr ++ [PyCall.PyErr_Fetch (py.PyErr_Fetch tr).1
      (py.PyErr_Fetch tr).2.1 (py.PyErr_Fetch tr).2.2]) (py.PyErr_Fetch tr).2.1,
    (py_fetch_error py tr).1, rfl, rfl, rfl, rfl, ?_, ?_⟩
  · simp [py_fetch_error, hv]
  · simp [py_fetch_error, hv]

/-- The calls of `py_fetch_error` begin with `PyErr_Fetch`, and all of them are among
its four entry points. -/
theorem py_fetch_error_shape (py : Python) (tr : List PyCall) :
    ∃ t v b later, (py_fetch_error py tr).2 = tr ++ PyCall.PyErr_Fetch t v b :: later
      ∧ ∀ c ∈ later, c.inFetchError = true := by
  by_cases hv : (py.PyErr_Fetch tr).2.1 = 0
  · exact ⟨_, 0, _, [], by rw [py_fetch_error_null py tr hv], by simp⟩
  · obtain ⟨t, v, b, pStr, text, _, _, _, _, _, heq⟩ := py_fetch_error_value py tr hv
    refine ⟨t, v, b, _, by rw [heq], ?_⟩
    intro c hc
    simp only [List.mem_cons, List.mem_singleton, List.not_mem_nil, or_false] at hc
    rcases hc with rfl | rfl | rfl | rfl <;> rfl

/-- C4, where the code departs from it: `py_object_ptr` never reads its flag and makes
no call into Python, so wrapping with the flag `false` performs no `Py_IncRef`, just as
with `true`; the wrapper holds the given pointer either way. `py_main_module`, which
passes `false` for the borrowed reference `41` that `PyImport_AddModule` returned, makes
that one call and no `Py_IncRef`. -/
theorem py_object_ptr_makes_no_call :
    (∀ (tr : List PyCall) (object : Ptr) (decref : Bool),
      (py_object_ptr tr object decref).2 = tr ∧ (py_object_ptr tr object decref).1.get = object)
    ∧ (∀ (tr : List PyCall) (object : Ptr),
      py_object_ptr tr object false = py_object_ptr tr object true)
    ∧ ((py_object_ptr [] 5 false).2.filter PyCall.isIncRef).length = 0
    ∧ (py_main_module workingPython []).result = Except.ok ⟨41, "py_object"⟩
    ∧ (py_main_module workingPython []).trace = [PyCall.PyImport_AddModule "__main__" 41] := by
  refine ⟨fun _ _ _ => ⟨rfl, rfl⟩, fun _ _ => rfl, by rfl, by rfl, by rfl⟩

/-- C7, where the code departs from it: with a pending exception of type `11`, value
`12` and traceback `13`, `py_fetch_error` releases the formatted string `14` and the
value `12` and nothing else: neither the type nor the traceback gets a `Py_DecRef`.
With the value absent and type and traceback present it makes no `Py_DecRef` at all. -/
theorem py_fetch_error_keeps_type_and_traceback :
    py_fetch_error failingPython []
      = ("boom", [PyCall.PyErr_Fetch 11 12 13, PyCall.PyObject_Str 12 14,
          PyCall.PyString_AsString 14 "boom", PyCall.Py_DecRef 14, PyCall.Py_DecRef 12])
    ∧ PyCall.Py_DecRef 11 ∉ (py_fetch_error failingPython []).2
    ∧ PyCall.Py_DecRef 13 ∉ (py_fetch_error failingPython []).2
    ∧ py_fetch_error valuelessPython [] = ("<unknown error>", [PyCall.PyErr_Fetch 11 0 13]) := by
  refine ⟨by rfl, by decide, by decide, by rfl⟩

/-- The calls made for one argument contain neither a `Py_DecRef` nor a
`PyObject_Call`. -/
theorem ArgCalls.plain {pyArgs : Ptr} {pos : Nat} {a : RObject} {seg : List PyCall}
    (h : ArgCalls pyArgs pos a seg) :
    ∀ c ∈ seg, c.isDecRef = false ∧ c.isObjectCall = false := by
  intro c hc
  rcases h with ⟨_, o, rfl⟩ | ⟨_, o, rfl⟩ | ⟨_, _, rfl⟩
  · simp only [List.mem_cons, List.mem_singleton, List.not_mem_nil, or_false] at hc
    rcases hc with rfl | rfl <;> exact ⟨rfl, rfl⟩
  · simp only [List.mem_cons, List.mem_singleton, List.not_mem_nil, or_false] at hc
    rcases hc with rfl | rfl <;> exact ⟨rfl, rfl⟩
  · simp at hc

/-- The argument loop of `py_object_call` adds one block of calls per argument, in
argument order, the block of the argument at position `i + k` being as `ArgCalls`
describes. -/
theorem setArgs_shape (py : Python) (pyArgs : Ptr) :
    ∀ (items : List RObject) (i : Nat) (tr : List PyCall),
      ∃ segs : List (List PyCall), segs.length = items.length
        ∧ setArgs py pyArgs i items tr = tr ++ segs.flatten
        ∧ ∀ k a, items[k]? = some a → ∃ seg, segs[k]? = some seg ∧ ArgCalls pyArgs (i + k) a seg := by
  intro items
  induction items with
  | nil => intro i tr; exact ⟨[], rfl, by simp [setArgs], by simp⟩
  | cons item rest ih =>
    intro i tr
    have build : ∀ (seg0 : List PyCall), ArgCalls pyArgs i item seg0 →
        setArgs py pyArgs i (item :: rest) tr = setArgs py pyArgs (i + 1) rest (tr ++ seg0) →
        ∃ segs : List (List PyCall), segs.length = (item :: rest).length
          ∧ setArgs py pyArgs i (item :: rest) tr = tr ++ segs.flatten
          ∧ ∀ k a, (item :: rest)[k]? = some a →
              ∃ seg, segs[k]? = some seg ∧ ArgCalls pyArgs (i + k) a seg := by
      intro seg0 h0 hstep
      obtain ⟨segs, hlen, htr, hseg⟩ := ih (i + 1) (tr ++ seg0)
      refine ⟨seg0 :: segs, by simp [hlen], ?_, ?_⟩
      · rw [hstep, htr]; simp
      · intro k a hk
        cases k with
        | zero =>
          simp only [List.getElem?_cons_zero, Option.some.injEq] at hk
          subst hk
          exact ⟨seg0, by simp, h0⟩
        | succ k =>
          simp only [List.getElem?_cons_succ] at hk
          obtain ⟨seg, hs, hc⟩ := hseg k a hk
          refine ⟨seg, by simpa using hs, ?_⟩
          have hidx : i + (k + 1) = i + 1 + k := by omega
          rw [hidx]; exact hc
    have hne : ¬ REALSXP = INTSXP := by decide
    by_cases hint : item.sexp_type = INTSXP
    · exact build
        [PyCall.PyInt_FromLong (item.INTEGER 0) (py.PyInt_FromLong tr (item.INTEGER 0)),
          PyCall.PyTuple_SetItem pyArgs i (py.PyInt_FromLong tr (item.INTEGER 0))]
        (Or.inl ⟨hint, _, rfl⟩) (by simp [setArgs, hint])
    · by_cases hreal : item.sexp_type = REALSXP
      · exact build
          [PyCall.PyFloat_FromDouble (item.REAL 0) (py.PyFloat_FromDouble tr (item.REAL 0)),
            PyCall.PyTuple_SetItem pyArgs i (py.PyFloat_FromDouble tr (item.REAL 0))]
          (Or.inr (Or.inl ⟨hreal, _, rfl⟩)) (by simp [setArgs, hreal, hne])
      · exact build [] (Or.inr (Or.inr ⟨hint, hreal, rfl⟩)) (by simp [setArgs, hint, hreal])

/-- The whole of `py_object_call`: the tuple is created, the argument blocks follow, then
the dictionary is created, the call is made and both are released; after that the
function returns the wrapped result, or stops with the fetched error when the result is
`NULL`. -/
theorem py_object_call_shape (py : Python) (tr : List PyCall) (x : PyObjectPtr)
    (args keywords : List RObject) :
    ∃ (pyArgs pyKeywords res : Ptr) (segs : List (List PyCall)),
      segs.length = args.length
      ∧ (∀ k a, args[k]? = some a → ∃ seg, segs[k]? = some seg ∧ ArgCalls pyArgs k a seg)
      ∧ (res ≠ 0 → py_object_call py tr x args keywords
          = ⟨Except.ok ⟨res, "py_object"⟩,
              tr ++ PyCall.PyTuple_New args.length pyArgs :: segs.flatten
                ++ [PyCall.PyDict_New pyKeywords, PyCall.PyObject_Call x.get pyArgs pyKeywords res,
                    PyCall.Py_DecRef pyArgs, PyCall.Py_DecRef pyKeywords]⟩)
      ∧ (res = 0 → py_object_call py tr x args keywords
          = stopWithFetchedError py
              (tr ++ PyCall.PyTuple_New args.length pyArgs :: segs.flatten
                ++ [PyCall.PyDict_New pyKeywords, PyCall.PyObject_Call x.get pyArgs pyKeywords 0,
                    PyCall.Py_DecRef pyArgs, PyCall.Py_DecRef pyKeywords])) := by
  obtain ⟨segs, hlen, htr, hseg⟩ := setArgs_shape py (py.PyTuple_New tr args.length) args 0
    (tr ++ [PyCall.PyTuple_New args.length (py.PyTuple_New tr args.length)])
  refine ⟨py.PyTuple_New tr args.length, py.PyDict_New (setArgs py (py.PyTuple_New tr args.length)
      0 args (tr ++ [PyCall.PyTuple_New args.length (py.PyTuple_New tr args.length)])),
    py.PyObject_Call
      (setArgs py (py.PyTuple_New tr args.length) 0 args
          (tr ++ [PyCall.PyTuple_New args.length (py.PyTuple_New tr args.length)])
        ++ [PyCall.PyDict_New (py.PyDict_New (setArgs py (py.PyTuple_New tr args.length)
          0 args (tr ++ [PyCall.PyTuple_New args.length (py.PyTuple_New tr args.length)])))])
      x.get (py.PyTuple_New tr args.length)
      (py.PyDict_New (setArgs py (py.PyTuple_New tr args.length)
        0 args (tr ++ [PyCall.PyTuple_New args.length (py.PyTuple_New tr args.length)]))),
    segs, hlen, ?_, ?_, ?_⟩
  · intro k a hk
    obtain ⟨seg, hs, hc⟩ := hseg k a hk
    exact ⟨seg, hs, by simpa using hc⟩
  · intro hres
    simp only [py_object_call, hres, if_false, py_object_ptr]
    rw [htr]
    simp
  · intro hres
    simp only [py_object_call, hres, if_true]
    rw [htr]
    simp

/-- The calls `py_object_call` makes before `PyObject_Call` (creating the tuple, the
argument blocks, creating the dictionary) contain neither a `Py_DecRef` nor a
`PyObject_Call`. -/
theorem frame_calls_plain {args : List RObject} {pyArgs : Ptr} {segs : List (List PyCall)}
    (hlen : segs.length = args.length)
    (hseg : ∀ k a, args[k]? = some a → ∃ seg, segs[k]? = some seg ∧ ArgCalls pyArgs k a seg)
    (pyKeywords : Ptr) :
    ∀ c ∈ PyCall.PyTuple_New args.length pyArgs :: segs.flatten
        ++ [PyCall.PyDict_New pyKeywords],
      c.isDecRef = false ∧ c.isObjectCall = false := by
  intro c hc
  simp only [List.cons_append, List.mem_cons, List.mem_append, List.mem_flatten,
    List.mem_singleton, List.not_mem_nil, or_false] at hc
  rcases hc with rfl | ⟨seg, hmem, hcs⟩ | rfl
  · exact ⟨rfl, rfl⟩
  · obtain ⟨k, hk, hget⟩ := List.getElem_of_mem hmem
    have hka : k < args.length := by omega
    obtain ⟨seg2, hs2, hc2⟩ := hseg k args[k] (List.getElem?_eq_getElem hka)
    rw [List.getElem?_eq_getElem hk, hget] at hs2
    cases hs2
    exact hc2.plain c hcs
  · exact ⟨rfl, rfl⟩

/-- C6. In `py_object_call`, for every target, argument list and keyword list: before
`PyObject_Call` the function creates the tuple `pyArgs` and the dictionary `pyKeywords`
and releases nothing; right after `PyObject_Call` come exactly `Py_DecRef(pyArgs)` and
`Py_DecRef(pyKeywords)`. With a result that is not `NULL` these are the last calls and
the wrapped result is returned; with a `NULL` result the function then runs
`py_fetch_error` (whose calls are all that follows) and stops with its message. -/
theorem py_object_call_releases_frame (py : Python) (tr : List PyCall) (x : PyObjectPtr)
    (args keywords : List RObject) :
    ∃ (pre : List PyCall) (pyArgs pyKeywords res : Ptr),
      PyCall.PyTuple_New args.length pyArgs ∈ pre
      ∧ PyCall.PyDict_New pyKeywords ∈ pre
      ∧ (∀ c ∈ pre, c.isDecRef = false ∧ c.isObjectCall = false)
      ∧ (res ≠ 0 →
          (py_object_call py tr x args keywords).trace
            = tr ++ pre ++ [PyCall.PyObject_Call x.get pyArgs pyKeywords res,
                PyCall.Py_DecRef pyArgs, PyCall.Py_DecRef pyKeywords]
          ∧ (py_object_call py tr x args keywords).result = Except.ok ⟨res, "py_object"⟩)
      ∧ (res = 0 →
          (py_object_call py tr x args keywords).result
            = Except.error (py_fetch_error py
                (tr ++ pre ++ [PyCall.PyObject_Call x.get pyArgs pyKeywords 0,
                  PyCall.Py_DecRef pyArgs, PyCall.Py_DecRef pyKeywords])).1
          ∧ (py_object_call py tr x args keywords).trace
            = (py_fetch_error py
                (tr ++ pre ++ [PyCall.PyObject_Call x.get pyArgs pyKeywords 0,
                  PyCall.Py_DecRef pyArgs, PyCall.Py_DecRef pyKeywords])).2
          ∧ ∃ t v b later,
              (py_object_call py tr x args keywords).trace
                = tr ++ pre ++ [PyCall.PyObject_Call x.get pyArgs pyKeywords 0,
                    PyCall.Py_DecRef pyArgs, PyCall.Py_DecRef pyKeywords]
                  ++ PyCall.PyErr_Fetch t v b :: later
              ∧ ∀ c ∈ later, c.inFetchError = true) := by
  obtain ⟨pyArgs, pyKeywords, res, segs, hlen, hseg, hok, hfail⟩ :=
    py_object_call_shape py tr x args keywords
  have hsplit : ∀ r : Ptr,
      tr ++ PyCall.PyTuple_New args.length pyArgs :: segs.flatten
          ++ [PyCall.PyDict_New pyKeywords, PyCall.PyObject_Call x.get pyArgs pyKeywords r,
              PyCall.Py_DecRef pyArgs, PyCall.Py_DecRef pyKeywords]
        = tr ++ (PyCall.PyTuple_New args.length pyArgs :: segs.flatten
            ++ [PyCall.PyDict_New pyKeywords])
          ++ [PyCall.PyObject_Call x.get pyArgs pyKeywords r,
              PyCall.Py_DecRef pyArgs, PyCall.Py_DecRef pyKeywords] := by
    intro r; simp
  refine ⟨PyCall.PyTuple_New args.length pyArgs :: segs.flatten
      ++ [PyCall.PyDict_New pyKeywords], pyArgs, pyKeywords, res, by simp, by simp, ?_, ?_, ?_⟩
  · exact frame_calls_plain hlen hseg pyKeywords
  · intro hres
    rw [hok hres, hsplit]
    exact ⟨rfl, rfl⟩
  · intro hres
    rw [hfail hres, hsplit]
    refine ⟨rfl, rfl, ?_⟩
    obtain ⟨t, v, b, later, hshape, hl⟩ := py_fetch_error_shape py
      (tr ++ (PyCall.PyTuple_New args.length pyArgs :: segs.flatten
            ++ [PyCall.PyDict_New pyKeywords])
          ++ [PyCall.PyObject_Call x.get pyArgs pyKeywords 0,
              PyCall.Py_DecRef pyArgs, PyCall.Py_DecRef pyKeywords])
    exact ⟨t, v, b, later, hshape, hl⟩

/-- C10. In `py_object_call`, for every argument list of length `n`: the first call is
`PyTuple_New(n)`; between it and `PyDict_New` lies one block of calls per argument, in
argument order; the block of argument `k` builds a Python integer from its first
element and stores it at position `k` when the argument is an `INTSXP`, builds a Python
float from its first element and stores it at position `k` when it is a `REALSXP`, and
is empty for every other type (nothing is stored at `k`, the positions of the other
arguments are as before, and no error is raised: the function's result depends on the
result of `PyObject_Call` alone). The dictionary handed to `PyObject_Call` is the one
`PyDict_New` has just returned, with no call in between, and the parameter `keywords`
has no effect. -/
theorem py_object_call_marshals (py : Python) (tr : List PyCall) (x : PyObjectPtr)
    (args keywords : List RObject) :
    (∃ (pyArgs pyKeywords res : Ptr) (segs : List (List PyCall)) (rest : List PyCall),
      (py_object_call py tr x args keywords).trace
        = tr ++ PyCall.PyTuple_New args.length pyArgs :: segs.flatten
          ++ PyCall.PyDict_New pyKeywords :: PyCall.PyObject_Call x.get pyArgs pyKeywords res
            :: rest
      ∧ segs.length = args.length
      ∧ (∀ k a, args[k]? = some a → ∃ seg, segs[k]? = some seg ∧ ArgCalls pyArgs k a seg)
      ∧ (res ≠ 0 →
          (py_object_call py tr x args keywords).result = Except.ok ⟨res, "py_object"⟩))
    ∧ py_object_call py tr x args keywords = py_object_call py tr x args [] := by
  refine ⟨?_, rfl⟩
  obtain ⟨pyArgs, pyKeywords, res, segs, hlen, hseg, hok, hfail⟩ :=
    py_object_call_shape py tr x args keywords
  by_cases hres : res = 0
  · refine ⟨pyArgs, pyKeywords, res, segs,
      [PyCall.Py_DecRef pyArgs, PyCall.Py_DecRef pyKeywords]
        ++ ((py_fetch_error py
          (tr ++ PyCall.PyTuple_New args.length pyArgs :: segs.flatten
            ++ [PyCall.PyDict_New pyKeywords, PyCall.PyObject_Call x.get pyArgs pyKeywords 0,
                PyCall.Py_DecRef pyArgs, PyCall.Py_DecRef pyKeywords])).2.drop
          (tr ++ PyCall.PyTuple_New args.length pyArgs :: segs.flatten
            ++ [PyCall.PyDict_New pyKeywords, PyCall.PyObject_Call x.get pyArgs pyKeywords 0,
                PyCall.Py_DecRef pyArgs, PyCall.Py_DecRef pyKeywords]).length),
      ?_, hlen, hseg, fun h => absurd hres h⟩
    rw [hfail hres]
    obtain ⟨t, v, b, later, hshape, _⟩ := py_fetch_error_shape py
      (tr ++ PyCall.PyTuple_New args.length pyArgs :: segs.flatten
        ++ [PyCall.PyDict_New pyKeywords, PyCall.PyObject_Call x.get pyArgs pyKeywords 0,
            PyCall.Py_DecRef pyArgs, PyCall.Py_DecRef pyKeywords])
    simp only [stopWithFetchedError]
    rw [hshape, List.drop_left, hres]
    simp
  · refine ⟨pyArgs, pyKeywords, res, segs,
      [PyCall.Py_DecRef pyArgs, PyCall.Py_DecRef pyKeywords], ?_, hlen, hseg, fun _ => ?_⟩
    · rw [hok hres]
    · rw [hok hres]

/-- The loop of `py_list_attributes` adds one block per round, the block of round `k`
being `PyList_GetItem(attrs, index + k)` and then `PyString_AsString` of the item it
returned, and appends the strings read, in that order, to `attributes`. -/
theorem pushAttributes_shape (py : Python) (attrs : Ptr) :
    ∀ (count : Nat) (index : Int) (acc : List String) (tr : List PyCall),
      ∃ (segs : List (List PyCall)) (names : List String),
        segs.length = count ∧ names.length = count
        ∧ pushAttributes py attrs count index acc tr = (acc ++ names, tr ++ segs.flatten)
        ∧ ∀ k, k < count → ∃ item s,
            segs[k]? = some [PyCall.PyList_GetItem attrs (index + k) item,
              PyCall.PyString_AsString item s]
            ∧ names[k]? = some s := by
  intro count
  induction count with
  | zero => intro index acc tr; exact ⟨[], [], rfl, rfl, by simp [pushAttributes], by simp⟩
  | succ count ih =>
    intro index acc tr
    obtain ⟨segs, names, hsl, hnl, hrun, hk⟩ := ih (index + 1)
      (acc ++ [py.PyString_AsString
        (tr ++ [PyCall.PyList_GetItem attrs index (py.PyList_GetItem tr attrs index)])
        (py.PyList_GetItem tr attrs index)])
      (tr ++ [PyCall.PyList_GetItem attrs index (py.PyList_GetItem tr attrs index)]
        ++ [PyCall.PyString_AsString (py.PyList_GetItem tr attrs index)
          (py.PyString_AsString
            (tr ++ [PyCall.PyList_GetItem attrs index (py.PyList_GetItem tr attrs index)])
            (py.PyList_GetItem tr attrs index))])
    refine ⟨[PyCall.PyList_GetItem attrs index (py.PyList_GetItem tr attrs index),
        PyCall.PyString_AsString (py.PyList_GetItem tr attrs index)
          (py.PyString_AsString
            (tr ++ [PyCall.PyList_GetItem attrs index (py.PyList_GetItem tr attrs index)])
            (py.PyList_GetItem tr attrs index))] :: segs,
      py.PyString_AsString
        (tr ++ [PyCall.PyList_GetItem attrs index (py.PyList_GetItem tr attrs index)])
        (py.PyList_GetItem tr attrs index) :: names,
      by simp [hsl], by simp [hnl], ?_, ?_⟩
    · simp only [pushAttributes]
      rw [hrun]
      simp
    · intro k hklt
      cases k with
      | zero =>
        exact ⟨py.PyList_GetItem tr attrs index,
          py.PyString_AsString
            (tr ++ [PyCall.PyList_GetItem attrs index (py.PyList_GetItem tr attrs index)])
            (py.PyList_GetItem tr attrs index), by simp, by simp⟩
      | succ k =>
        obtain ⟨item, s, hs, hn⟩ := hk k (by omega)
        refine ⟨item, s, ?_, by simpa using hn⟩
        have hidx : index + ((k + 1 : Nat) : Int) = index + 1 + (k : Int) := by
          push_cast; ring
        rw [hidx]
        simpa using hs

/-- With a runtime whose directory answers do not change, the strings the loop of
`py_list_attributes` collects do not depend on the trace it starts from. -/
theorem pushAttributes_names (py : Python) (hsame : DirectoryUnchanged py) (attrs : Ptr) :
    ∀ (count : Nat) (index : Int) (acc : List String) (tr tr2 : List PyCall),
      (pushAttributes py attrs count index acc tr).1
        = (pushAttributes py attrs count index acc tr2).1 := by
  intro count
  induction count with
  | zero => intro index acc tr tr2; rfl
  | succ count ih =>
    intro index acc tr tr2
    simp only [pushAttributes]
    rw [hsame.2.2.1 tr tr2 attrs index,
      hsame.2.2.2 (tr ++ [PyCall.PyList_GetItem attrs index (py.PyList_GetItem tr2 attrs index)])
        (tr2 ++ [PyCall.PyList_GetItem attrs index (py.PyList_GetItem tr2 attrs index)])]
    exact ih _ _ _ _

/-- With a runtime whose directory answers do not change, a successful
`py_list_attributes` returns the same strings whatever trace it starts from. -/
theorem py_list_attributes_same (py : Python) (hsame : DirectoryUnchanged py) (x : PyObjectPtr)
    (hlist : py.PyObject_Dir [] x.get ≠ 0) (tr : List PyCall) :
    (py_list_attributes py tr x).result
      = Except.ok (pushAttributes py (py.PyObject_Dir [] x.get)
          (py.PyList_Size [] (py.PyObject_Dir [] x.get)).toNat 0 [] []).1 := by
  have hdir : py.PyObject_Dir tr x.get = py.PyObject_Dir [] x.get := hsame.1 _ _ _
  simp only [py_list_attributes, hdir, hlist, if_false]
  rw [hsame.2.1 (tr ++ [PyCall.PyObject_Dir x.get (py.PyObject_Dir [] x.get)]) []
    (py.PyObject_Dir [] x.get)]
  rw [pushAttributes_names py hsame (py.PyObject_Dir [] x.get) _ 0 [] _ []]

/-- C9. `py_list_attributes`: when `PyObject_Dir` returns `NULL` it stops with the
message of `py_fetch_error`. When it returns a list `attrs` whose `PyList_Size` is `n`,
the calls are `PyObject_Dir`, `PyList_Size`, then for each `k < n` in increasing order
`PyList_GetItem(attrs, k)` and `PyString_AsString` of that item, then one
`Py_DecRef(attrs)`, the only release; the result has length `n` and its element `k` is
the string read for item `k`. With a runtime whose directory answers do not change, a
second call made right after the first returns the same sequence. -/
theorem py_list_attributes_lists (py : Python) (tr : List PyCall) (x : PyObjectPtr) :
    (py.PyObject_Dir tr x.get = 0 →
      (py_list_attributes py tr x).result
        = Except.error (py_fetch_error py (tr ++ [PyCall.PyObject_Dir x.get 0])).1
      ∧ (py_list_attributes py tr x).trace
        = (py_fetch_error py (tr ++ [PyCall.PyObject_Dir x.get 0])).2)
    ∧ (py.PyObject_Dir tr x.get ≠ 0 →
      ∃ (attrs : Ptr) (len : Int) (names : List String) (segs : List (List PyCall)),
        attrs = py.PyObject_Dir tr x.get
        ∧ len = py.PyList_Size (tr ++ [PyCall.PyObject_Dir x.get attrs]) attrs
        ∧ (py_list_attributes py tr x).result = Except.ok names
        ∧ names.length = len.toNat ∧ segs.length = len.toNat
        ∧ (py_list_attributes py tr x).trace
          = tr ++ PyCall.PyObject_Dir x.get attrs :: PyCall.PyList_Size attrs len
              :: segs.flatten ++ [PyCall.Py_DecRef attrs]
        ∧ ∀ k, k < len.toNat → ∃ item s,
            segs[k]? = some [PyCall.PyList_GetItem attrs k item, PyCall.PyString_AsString item s]
            ∧ names[k]? = some s)
    ∧ (py.PyObject_Dir tr x.get ≠ 0 → DirectoryUnchanged py →
      (py_list_attributes py (py_list_attributes py tr x).trace x).result
        = (py_list_attributes py tr x).result) := by
  refine ⟨fun hnull => ?_, fun hlist => ?_, fun hlist hsame => ?_⟩
  · simp [py_list_attributes, hnull, stopWithFetchedError]
  · obtain ⟨segs, names, hsl, hnl, hrun, hk⟩ := pushAttributes_shape py (py.PyObject_Dir tr x.get)
      (py.PyList_Size (tr ++ [PyCall.PyObject_Dir x.get (py.PyObject_Dir tr x.get)])
        (py.PyObject_Dir tr x.get)).toNat 0 []
      (tr ++ [PyCall.PyObject_Dir x.get (py.PyObject_Dir tr x.get)]
        ++ [PyCall.PyList_Size (py.PyObject_Dir tr x.get)
          (py.PyList_Size (tr ++ [PyCall.PyObject_Dir x.get (py.PyObject_Dir tr x.get)])
            (py.PyObject_Dir tr x.get))])
    refine ⟨_, _, names, segs, rfl, rfl, ?_, hnl, hsl, ?_, ?_⟩
    · simp only [py_list_attributes, hlist, if_false]
      rw [hrun]; simp
    · simp only [py_list_attributes, hlist, if_false]
      rw [hrun]; simp
    · intro k hklt
      obtain ⟨item, s, hs, hn⟩ := hk k hklt
      exact ⟨item, s, by simpa using hs, hn⟩
  · have hlist0 : py.PyObject_Dir [] x.get ≠ 0 := by
      rw [hsame.1 [] tr x.get]; exact hlist
    rw [py_list_attributes_same py hsame x hlist0, py_list_attributes_same py hsame x hlist0]

/-- C9 at a concrete input: an object that lists `"imag"` and `"real"`, on a runtime
whose directory answers do not change. -/
theorem py_list_attributes_lists_witness :
    (py_list_attributes workingPython [] someObject).result = Except.ok ["imag", "real"]
    ∧ (py_list_attributes workingPython
        (py_list_attributes workingPython [] someObject).trace someObject).result
      = (py_list_attributes workingPython [] someObject).result :=
  ⟨by rfl, (py_list_attributes_lists workingPython [] someObject).2.2 (by decide)
    ⟨fun _ _ _ => rfl, fun _ _ _ => rfl, fun _ _ _ _ => rfl, fun _ _ _ => rfl⟩⟩

/-- C5, as the code has it. In `py_object_get_attr`, `py_list_attributes` and
`py_run_string` (for its `PyImport_AddModule` as for its `PyRun_StringFlags`), a `NULL`
result of the Python call is followed at once by `PyErr_Fetch`. In `py_object_call` a
`NULL` result of `PyObject_Call` is followed by `Py_DecRef` of the argument tuple, then
`Py_DecRef` of the keyword dictionary, and only then by `PyErr_Fetch`. -/
theorem error_fetch_follows_failure (py : Python) (tr : List PyCall) :
    (∀ (x : PyObjectPtr) (name : String), ∃ attr post,
      (py_object_get_attr py tr x name).trace
        = tr ++ PyCall.PyObject_GetAttrString x.get name attr :: post
      ∧ (attr = 0 → ∃ t v b rest, post = PyCall.PyErr_Fetch t v b :: rest))
    ∧ (∀ (x : PyObjectPtr), ∃ attrs post,
      (py_list_attributes py tr x).trace = tr ++ PyCall.PyObject_Dir x.get attrs :: post
      ∧ (attrs = 0 → ∃ t v b rest, post = PyCall.PyErr_Fetch t v b :: rest))
    ∧ (∀ (code : String), ∃ main,
      (main = 0 ∧ ∃ t v b rest,
        (py_run_string py tr code).trace
          = tr ++ PyCall.PyImport_AddModule "__main__" 0 :: PyCall.PyErr_Fetch t v b :: rest)
      ∨ (main ≠ 0 ∧ ∃ dict res post,
        (py_run_string py tr code).trace
          = tr ++ PyCall.PyImport_AddModule "__main__" main :: PyCall.PyModule_GetDict main dict
            :: PyCall.PyRun_StringFlags code Py_file_input dict dict 0 res :: post
        ∧ (res = 0 → ∃ t v b rest, post = PyCall.PyErr_Fetch t v b :: rest)))
    ∧ (∀ (x : PyObjectPtr) (args keywords : List RObject), ∃ pre pyArgs pyKeywords res post,
      (py_object_call py tr x args keywords).trace
        = tr ++ pre ++ PyCall.PyObject_Call x.get pyArgs pyKeywords res :: post
      ∧ (∀ c ∈ pre, c.isObjectCall = false)
      ∧ (res = 0 → ∃ t v b rest,
          post = PyCall.Py_DecRef pyArgs :: PyCall.Py_DecRef pyKeywords
            :: PyCall.PyErr_Fetch t v b :: rest)) := by
  have fetched : ∀ (h : List PyCall), ∃ t v b rest,
      (py_fetch_error py h).2 = h ++ PyCall.PyErr_Fetch t v b :: rest := by
    intro h
    obtain ⟨t, v, b, later, hshape, _⟩ := py_fetch_error_shape py h
    exact ⟨t, v, b, later, hshape⟩
  refine ⟨fun x name => ?_, fun x => ?_, fun code => ?_, fun x args keywords => ?_⟩
  · by_cases hattr : py.PyObject_GetAttrString tr x.get name = 0
    · obtain ⟨t, v, b, rest, hf⟩ := fetched (tr ++ [PyCall.PyObject_GetAttrString x.get name 0])
      refine ⟨0, PyCall.PyErr_Fetch t v b :: rest, ?_, fun _ => ⟨t, v, b, rest, rfl⟩⟩
      simp only [py_object_get_attr, hattr, if_true, stopWithFetchedError]
      rw [hf]; simp
    · refine ⟨py.PyObject_GetAttrString tr x.get name, [], ?_, fun h => absurd h hattr⟩
      simp [py_object_get_attr, hattr, py_object_ptr]
  · by_cases hdir : py.PyObject_Dir tr x.get = 0
    · obtain ⟨t, v, b, rest, hf⟩ := fetched (tr ++ [PyCall.PyObject_Dir x.get 0])
      refine ⟨0, PyCall.PyErr_Fetch t v b :: rest, ?_, fun _ => ⟨t, v, b, rest, rfl⟩⟩
      simp only [py_list_attributes, hdir, if_true, stopWithFetchedError]
      rw [hf]; simp
    · obtain ⟨segs, names, _, _, hrun, _⟩ := pushAttributes_shape py (py.PyObject_Dir tr x.get)
        (py.PyList_Size (tr ++ [PyCall.PyObject_Dir x.get (py.PyObject_Dir tr x.get)])
          (py.PyObject_Dir tr x.get)).toNat 0 []
        (tr ++ [PyCall.PyObject_Dir x.get (py.PyObject_Dir tr x.get)]
          ++ [PyCall.PyList_Size (py.PyObject_Dir tr x.get)
            (py.PyList_Size (tr ++ [PyCall.PyObject_Dir x.get (py.PyObject_Dir tr x.get)])
              (py.PyObject_Dir tr x.get))])
      refine ⟨py.PyObject_Dir tr x.get,
        PyCall.PyList_Size (py.PyObject_Dir tr x.get)
            (py.PyList_Size (tr ++ [PyCall.PyObject_Dir x.get (py.PyObject_Dir tr x.get)])
              (py.PyObject_Dir tr x.get))
          :: segs.flatten ++ [PyCall.Py_DecRef (py.PyObject_Dir tr x.get)],
        ?_, fun h => absurd h hdir⟩
      simp only [py_list_attributes, hdir, if_false]
      rw [hrun]; simp
  · refine ⟨py.PyImport_AddModule tr "__main__", ?_⟩
    by_cases hmain : py.PyImport_AddModule tr "__main__" = 0
    · left
      obtain ⟨t, v, b, rest, hf⟩ := fetched (tr ++ [PyCall.PyImport_AddModule "__main__" 0])
      refine ⟨hmain, t, v, b, rest, ?_⟩
      simp only [py_run_string, py_main_module, hmain, if_true, stopWithFetchedError]
      rw [hf]; simp
    · right
      refine ⟨hmain, py.PyModule_GetDict
          (tr ++ [PyCall.PyImport_AddModule "__main__" (py.PyImport_AddModule tr "__main__")])
          (py.PyImport_AddModule tr "__main__"), ?_⟩
      generalize hd : py.PyModule_GetDict
          (tr ++ [PyCall.PyImport_AddModule "__main__" (py.PyImport_AddModule tr "__main__")])
          (py.PyImport_AddModule tr "__main__") = dict
      by_cases hres : py.PyRun_StringFlags
          (tr ++ [PyCall.PyImport_AddModule "__main__" (py.PyImport_AddModule tr "__main__")]
            ++ [PyCall.PyModule_GetDict (py.PyImport_AddModule tr "__main__") dict])
          code Py_file_input dict dict 0 = 0
      · obtain ⟨t, v, b, rest, hf⟩ := fetched
          (tr ++ [PyCall.PyImport_AddModule "__main__" (py.PyImport_AddModule tr "__main__")]
            ++ [PyCall.PyModule_GetDict (py.PyImport_AddModule tr "__main__") dict]
            ++ [PyCall.PyRun_StringFlags code Py_file_input dict dict 0 0])
        refine ⟨0, PyCall.PyErr_Fetch t v b :: rest, ?_, fun _ => ⟨t, v, b, rest, rfl⟩⟩
        simp only [py_run_string, py_main_module, hmain, if_false, py_object_ptr, hd, hres,
          if_true, stopWithFetchedError]
        rw [hf]; simp
      · refine ⟨py.PyRun_StringFlags
            (tr ++ [PyCall.PyImport_AddModule "__main__" (py.PyImport_AddModule tr "__main__")]
              ++ [PyCall.PyModule_GetDict (py.PyImport_AddModule tr "__main__") dict])
            code Py_file_input dict dict 0,
          [PyCall.Py_DecRef (py.PyRun_StringFlags
            (tr ++ [PyCall.PyImport_AddModule "__main__" (py.PyImport_AddModule tr "__main__")]
              ++ [PyCall.PyModule_GetDict (py.PyImport_AddModule tr "__main__") dict])
            code Py_file_input dict dict 0)], ?_, fun h => absurd h hres⟩
        simp only [py_run_string, py_main_module, hmain, if_false, py_object_ptr, hd, hres]
        simp
  · obtain ⟨pyArgs, pyKeywords, res, segs, hlen, hseg, hok, hfail⟩ :=
      py_object_call_shape py tr x args keywords
    have hpre : ∀ c ∈ PyCall.PyTuple_New args.length pyArgs :: segs.flatten
        ++ [PyCall.PyDict_New pyKeywords], c.isObjectCall = false :=
      fun c hc => (frame_calls_plain hlen hseg pyKeywords c hc).2
    by_cases hres : res = 0
    · obtain ⟨t, v, b, rest, hf⟩ := fetched
        (tr ++ PyCall.PyTuple_New args.length pyArgs :: segs.flatten
          ++ [PyCall.PyDict_New pyKeywords, PyCall.PyObject_Call x.get pyArgs pyKeywords 0,
              PyCall.Py_DecRef pyArgs, PyCall.Py_DecRef pyKeywords])
      refine ⟨_, pyArgs, pyKeywords, res, _, ?_, hpre, fun _ => ⟨t, v, b, rest, rfl⟩⟩
      rw [hfail hres]
      simp only [stopWithFetchedError]
      rw [hf, hres]; simp
    · refine ⟨_, pyArgs, pyKeywords, res,
        [PyCall.Py_DecRef pyArgs, PyCall.Py_DecRef pyKeywords], ?_, hpre,
        fun h => absurd h hres⟩
      rw [hok hres]; simp

/-- C5 as stated fails for `py_object_call`: on a runtime whose `PyObject_Call` returns
`NULL`, calling the object `9` without arguments invokes `PyTuple_New`, `PyDict_New`,
`PyObject_Call` (`NULL`) and next `Py_DecRef` on the tuple `21`, then `Py_DecRef` on the
dictionary `22`; `PyErr_Fetch` comes only after these two. -/
theorem py_object_call_releases_before_fetch :
    (py_object_call failingPython [] someObject [] []).trace
      = [PyCall.PyTuple_New 0 21, PyCall.PyDict_New 22, PyCall.PyObject_Call 9 21 22 0,
          PyCall.Py_DecRef 21, PyCall.Py_DecRef 22, PyCall.PyErr_Fetch 11 12 13,
          PyCall.PyObject_Str 12 14, PyCall.PyString_AsString 14 "boom",
          PyCall.Py_DecRef 14, PyCall.Py_DecRef 12]
    ∧ (py_object_call failingPython [] someObject [] []).trace[2]?
      = some (PyCall.PyObject_Call 9 21 22 0)
    ∧ ((py_object_call failingPython [] someObject [] []).trace[3]?.map PyCall.isFetch)
      = some false := by
  refine ⟨by rfl, by rfl, by rfl⟩

/-- C5 at concrete inputs, on a runtime in which every operation fails: the calls of
`py_object_get_attr` and of `py_run_string`, and what the theorem says of them. -/
theorem error_fetch_follows_failure_witness :
    (py_object_get_attr failingPython [] someObject "f").trace
      = [PyCall.PyObject_GetAttrString 9 "f" 0, PyCall.PyErr_Fetch 11 12 13,
          PyCall.PyObject_Str 12 14, PyCall.PyString_AsString 14 "boom",
          PyCall.Py_DecRef 14, PyCall.Py_DecRef 12]
    ∧ (py_run_string failingPython [] "x = ").trace
      = [PyCall.PyImport_AddModule "__main__" 41, PyCall.PyModule_GetDict 41 42,
          PyCall.PyRun_StringFlags "x = " 257 42 42 0 0, PyCall.PyErr_Fetch 11 12 13,
          PyCall.PyObject_Str 12 14, PyCall.PyString_AsString 14 "boom",
          PyCall.Py_DecRef 14, PyCall.Py_DecRef 12]
    ∧ (∃ attr post,
        (py_object_get_attr failingPython [] someObject "f").trace
          = [] ++ PyCall.PyObject_GetAttrString someObject.get "f" attr :: post
        ∧ (attr = 0 → ∃ t v b rest, post = PyCall.PyErr_Fetch t v b :: rest)) :=
  ⟨by rfl, by rfl, (error_fetch_follows_failure failingPython []).1 someObject "f"⟩

/-- C6 at concrete inputs: a call that succeeds and a call that fails, each with the
two releases right after `PyObject_Call`. -/
theorem py_object_call_releases_frame_witness :
    (py_object_call workingPython [] someObject [intArg 5] []).trace
      = [PyCall.PyTuple_New 1 21, PyCall.PyInt_FromLong 5 31, PyCall.PyTuple_SetItem 21 0 31,
          PyCall.PyDict_New 22, PyCall.PyObject_Call 9 21 22 70,
          PyCall.Py_DecRef 21, PyCall.Py_DecRef 22]
    ∧ (py_object_call failingPython [] someObject [intArg 5] []).result = Except.error "boom"
    ∧ (py_object_call failingPython [] someObject [intArg 5] []).trace
      = [PyCall.PyTuple_New 1 21, PyCall.PyInt_FromLong 5 31, PyCall.PyTuple_SetItem 21 0 31,
          PyCall.PyDict_New 22, PyCall.PyObject_Call 9 21 22 0,
          PyCall.Py_DecRef 21, PyCall.Py_DecRef 22, PyCall.PyErr_Fetch 11 12 13,
          PyCall.PyObject_Str 12 14, PyCall.PyString_AsString 14 "boom",
          PyCall.Py_DecRef 14, PyCall.Py_DecRef 12]
    ∧ (∃ (pre : List PyCall) (pyArgs pyKeywords res : Ptr),
        PyCall.PyTuple_New 1 pyArgs ∈ pre ∧ PyCall.PyDict_New pyKeywords ∈ pre) :=
  have h := py_object_call_releases_frame failingPython [] someObject [intArg 5] []
  ⟨by rfl, by rfl, by rfl,
    h.elim fun pre h1 => h1.elim fun pyArgs h2 => h2.elim fun pyKeywords h3 =>
      h3.elim fun res h4 => ⟨pre, pyArgs, pyKeywords, res, h4.1, h4.2.1⟩⟩

/-- C10 at a concrete input: an integer, a character vector and a real, in this order;
the integer lands at position `0`, the real at position `2`, nothing at position `1`. -/
theorem py_object_call_marshals_witness :
    (py_object_call workingPython [] someObject [intArg 5, strArg, realArg 7] [strArg]).trace
      = [PyCall.PyTuple_New 3 21, PyCall.PyInt_FromLong 5 31, PyCall.PyTuple_SetItem 21 0 31,
          PyCall.PyFloat_FromDouble 7 32, PyCall.PyTuple_SetItem 21 2 32,
          PyCall.PyDict_New 22, PyCall.PyObject_Call 9 21 22 70,
          PyCall.Py_DecRef 21, PyCall.Py_DecRef 22]
    ∧ py_object_call workingPython [] someObject [intArg 5, strArg, realArg 7] [strArg]
      = py_object_call workingPython [] someObject [intArg 5, strArg, realArg 7] [] :=
  ⟨by rfl,
    (py_object_call_marshals workingPython [] someObject [intArg 5, strArg, realArg 7]
      [strArg]).2⟩
